import Mathlib

/-!
Verification of the smart-face capture pipeline.

The development embeds the two call sites of the repository:

* `smart_capture_calculator.cc` — the MediaPipe calculator
  (`SmartCaptureCalculator::Open/Process/CropAndSend`), modelled by
  `CalcState`, `calcProcess`, `cropRect` and friends.
* `smart_face_main_wasm.cc` — the WASM demo module
  (`SmartFaceProcessor` with `EstimateYaw/EstimatePitch/EstimateRoll`,
  `detectFace`, `captureFrame`, `getLandmark`, …), modelled by
  `WasmState`, `detectFace`, `captureFrame` and friends.

Float arithmetic is idealised: float values are embedded as rationals
(`ℚ`), and the transcendental operations (`std::atan2`, `M_PI`) as real
numbers (`ℝ`).  Conversions `(int)` of a float truncate toward zero
(`trunc` below) and C integer division on `int` truncates toward zero
(`Int.tdiv`), exactly as in C++.  An out-of-bounds protobuf landmark
access (`landmarks.landmark(i)` with `i` past the end) is undefined
behaviour; the embedding of the calculator therefore returns `Option`,
with `none` marking a run that performs such an access.
-/

/-- A face-mesh landmark: the C++ `Landmark` struct / protobuf
`NormalizedLandmark`, three float coordinates. -/
structure Landmark where
  x : ℚ
  y : ℚ
  z : ℚ
deriving DecidableEq, Repr

/-- C `atan2(y, x)` on the idealised reals (signed zeros collapse to 0,
so `atan2 0 0 = 0`, matching `std::atan2(+0.0, +0.0)`). -/
noncomputable def atan2 (y x : ℝ) : ℝ :=
  if 0 < x then Real.arctan (y / x)
  else if x < 0 then
    (if 0 ≤ y then Real.arctan (y / x) + Real.pi
     else Real.arctan (y / x) - Real.pi)
  else if 0 < y then Real.pi / 2
  else if y < 0 then -(Real.pi / 2)
  else 0

/-- `ToDegrees` from `smart_capture_calculator.cc`:
`radians * 180.0f / M_PI`. -/
noncomputable def toDegrees (radians : ℝ) : ℝ := radians * 180 / Real.pi

/-- Float-to-int conversion in C++: truncation toward zero. -/
def trunc (q : ℚ) : ℤ := if 0 ≤ q then ⌊q⌋ else ⌈q⌉

/-! ## WASM module: pose estimators (`smart_face_main_wasm.cc`) -/

/-- `EstimateYaw` (ratio-based estimator of the WASM module): guard
`landmarks.size() < 468`, then the horizontal-distance ratio between
nose tip (1) and the eye outer corners (33, 263), scaled by 45°. -/
def EstimateYaw (landmarks : List Landmark) : ℚ :=
  if landmarks.length < 468 then 0
  else
    let left_eye := landmarks.getD 33 ⟨0, 0, 0⟩
    let right_eye := landmarks.getD 263 ⟨0, 0, 0⟩
    let nose := landmarks.getD 1 ⟨0, 0, 0⟩
    let left_dist := |nose.x - left_eye.x|
    let right_dist := |right_eye.x - nose.x|
    let ratio := (left_dist - right_dist) / (left_dist + right_dist + 1/1000)
    ratio * 45

/-- `EstimatePitch` of the WASM module: vertical-distance ratio among
forehead (10), nose bridge (168) and chin (152), scaled by 30°. -/
def EstimatePitch (landmarks : List Landmark) : ℚ :=
  if landmarks.length < 468 then 0
  else
    let nose_bridge := landmarks.getD 168 ⟨0, 0, 0⟩
    let chin := landmarks.getD 152 ⟨0, 0, 0⟩
    let forehead := landmarks.getD 10 ⟨0, 0, 0⟩
    let upper := |forehead.y - nose_bridge.y|
    let lower := |chin.y - nose_bridge.y|
    let ratio := (upper - lower) / (upper + lower + 1/1000)
    ratio * 30

/-- `EstimateRoll` of the WASM module: `atan2(dy, dx) * 180 / M_PI`
between the two eye outer corners (33, 263). -/
noncomputable def EstimateRoll (landmarks : List Landmark) : ℝ :=
  if landmarks.length < 468 then 0
  else
    let left_eye := landmarks.getD 33 ⟨0, 0, 0⟩
    let right_eye := landmarks.getD 263 ⟨0, 0, 0⟩
    let dx : ℝ := (right_eye.x : ℝ) - (left_eye.x : ℝ)
    let dy : ℝ := (right_eye.y : ℝ) - (left_eye.y : ℝ)
    atan2 dy dx * 180 / Real.pi

/-! ## WASM module: `SmartFaceProcessor` -/

/-- The C++ `FaceResult` struct.  `yaw`/`pitch` carry the (rational)
ratio-based estimates, `roll` the real-valued `atan2` estimate. -/
structure FaceResult where
  detected : Bool
  landmark_count : ℤ
  message : String
  yaw : ℚ
  pitch : ℚ
  roll : ℝ
  quality_good : Bool
  landmarks : List Landmark := []

/-- The mutable fields of `SmartFaceProcessor`. -/
structure WasmState where
  initialized : Bool
  max_yaw : ℚ
  max_pitch : ℚ
  capture_count : ℤ
  max_captures : ℤ
  last_landmarks : List Landmark

/-- The `SmartFaceProcessor()` constructor. -/
def initProcessor : WasmState :=
  { initialized := false, max_yaw := 15, max_pitch := 15,
    capture_count := 0, max_captures := 5, last_landmarks := [] }

/-- `SmartFaceProcessor::initialize`. -/
def initSession (st : WasmState) : WasmState :=
  { st with initialized := true, capture_count := 0 }

/-- `SmartFaceProcessor::setMaxYaw`. -/
def setMaxYaw (st : WasmState) (degrees : ℚ) : WasmState :=
  { st with max_yaw := degrees }

/-- `SmartFaceProcessor::setMaxPitch`. -/
def setMaxPitch (st : WasmState) (degrees : ℚ) : WasmState :=
  { st with max_pitch := degrees }

/-- `SmartFaceProcessor::setMaxCaptures` — installs the new maximum
without touching `capture_count_`. -/
def setMaxCaptures (st : WasmState) (count : ℤ) : WasmState :=
  { st with max_captures := count }

/-- `SmartFaceProcessor::resetCaptures`. -/
def resetCaptures (st : WasmState) : WasmState :=
  { st with capture_count := 0 }

/-- `SmartFaceProcessor::getLandmark`: bounds-checked indexed access
into the stored landmarks, defaulting to `Landmark()` = (0,0,0). -/
def getLandmark (st : WasmState) (index : ℤ) : Landmark :=
  if 0 ≤ index ∧ index < (st.last_landmarks.length : ℤ) then
    st.last_landmarks.getD index.toNat ⟨0, 0, 0⟩
  else ⟨0, 0, 0⟩

/-- `SmartFaceProcessor::detectFace`.  The landmark list parameter
stands for the output of `processImageData` (which ignores the pixel
contents of `imageData` and synthesises landmarks; it stores them into
`last_landmarks_`, which is the state update modelled here). -/
noncomputable def detectFace (st : WasmState) (width height : ℤ)
    (lms : List Landmark) : WasmState × FaceResult :=
  if st.initialized = false then
    (st, ⟨false, 0, "Error: Not initialized", 0, 0, 0, false, []⟩)
  else if width < 100 ∨ height < 100 then
    (st, ⟨false, 0, "Image too small", 0, 0, 0, false, []⟩)
  else
    let st1 := { st with last_landmarks := lms }
    if lms.isEmpty ∨ lms.length < 468 then
      (st1, ⟨false, 0, "No face detected", 0, 0, 0, false, []⟩)
    else
      let yaw := EstimateYaw lms
      let pitch := EstimatePitch lms
      let roll := EstimateRoll lms
      let yaw_ok : Bool := |yaw| ≤ st.max_yaw
      let pitch_ok : Bool := |pitch| ≤ st.max_pitch
      let quality_good : Bool := yaw_ok && pitch_ok
      let msg : String :=
        if quality_good then "Good quality face detected!"
        else if yaw_ok = false then
          "Face turned too much (Yaw: " ++ toString (trunc yaw) ++ "째)"
        else if pitch_ok = false then
          "Face tilted too much (Pitch: " ++ toString (trunc pitch) ++ "째)"
        else ""
      (st1, ⟨true, lms.length, msg, yaw, pitch, roll, quality_good, lms⟩)

/-- `SmartFaceProcessor::captureFrame`: short-circuit on the capture
limit, then delegate to `detectFace` and increment on accept. -/
noncomputable def captureFrame (st : WasmState) (width height : ℤ)
    (lms : List Landmark) : WasmState × Bool :=
  if st.max_captures ≤ st.capture_count then (st, false)
  else
    let dr := detectFace st width height lms
    if dr.2.detected && dr.2.quality_good then
      ({ dr.1 with capture_count := dr.1.capture_count + 1 }, true)
    else (dr.1, false)

/-- Repeatedly invoke `captureFrame` with the same frame, counting the
calls that returned `true`. -/
noncomputable def iterCaptures (width height : ℤ) (lms : List Landmark) :
    WasmState → ℕ → WasmState × ℕ
  | st, 0 => (st, 0)
  | st, n + 1 =>
    let r := captureFrame st width height lms
    let rest := iterCaptures width height lms r.1 n
    (rest.1, (if r.2 then 1 else 0) + rest.2)

/-! ## Calculator: `SmartCaptureCalculator` -/

/-- Shared tail of the crop computation (`CropAndSend`, from the
bounding box onward): pixel box with truncation, padding about the box
center, clamping, and the positive-extent guard.  C `int` division
truncates toward zero (`Int.tdiv`). -/
def cropFromBox (min_x max_x min_y max_y : ℚ) (img_w img_h : ℤ)
    (padding : ℚ) : Option (ℤ × ℤ × ℤ × ℤ) :=
  let w : ℤ := trunc ((max_x - min_x) * (img_w : ℚ))
  let h : ℤ := trunc ((max_y - min_y) * (img_h : ℚ))
  let cx : ℤ := trunc (min_x * (img_w : ℚ) + ((Int.tdiv w 2 : ℤ) : ℚ))
  let cy : ℤ := trunc (min_y * (img_h : ℚ) + ((Int.tdiv h 2 : ℤ) : ℚ))
  let pad_w : ℤ := trunc ((w : ℚ) * (1 + padding))
  let pad_h : ℤ := trunc ((h : ℚ) * (1 + padding))
  let x : ℤ := max 0 (cx - Int.tdiv pad_w 2)
  let y : ℤ := max 0 (cy - Int.tdiv pad_h 2)
  let pad_w2 : ℤ := min pad_w (img_w - x)
  let pad_h2 : ℤ := min pad_h (img_h - y)
  if 0 < pad_w2 ∧ 0 < pad_h2 then some (x, y, pad_w2, pad_h2) else none

/-- `SmartCaptureCalculator::CropAndSend`: fold the landmark bounding
box with the source's seeds (`min` seeded at 1.0, `max` at 0.0), then
`cropFromBox`.  Returns the emitted ROI, or `none` for the silent
skip. -/
def cropRect (lms : List Landmark) (img_w img_h : ℤ) (padding : ℚ) :
    Option (ℤ × ℤ × ℤ × ℤ) :=
  let min_x := lms.foldl (fun m lm => min m lm.x) 1
  let max_x := lms.foldl (fun m lm => max m lm.x) 0
  let min_y := lms.foldl (fun m lm => min m lm.y) 1
  let max_y := lms.foldl (fun m lm => max m lm.y) 0
  cropFromBox min_x max_x min_y max_y img_w img_h padding

/-- The crop rectangle as the spec describes it: the true min/max of
the landmark coordinates (seeded from the first landmark), then the
same pixel-box/padding/clamping pipeline. -/
def cropRectSpec (lms : List Landmark) (img_w img_h : ℤ) (padding : ℚ) :
    Option (ℤ × ℤ × ℤ × ℤ) :=
  match lms with
  | [] => none
  | l :: rest =>
    let min_x := rest.foldl (fun m lm => min m lm.x) l.x
    let max_x := rest.foldl (fun m lm => max m lm.x) l.x
    let min_y := rest.foldl (fun m lm => min m lm.y) l.y
    let max_y := rest.foldl (fun m lm => max m lm.y) l.y
    cropFromBox min_x max_x min_y max_y img_w img_h padding

/-- Depth-based yaw of the calculator (line 66):
`ToDegrees(atan2(left_ear.z - right_ear.z, left_ear.x - right_ear.x))`. -/
noncomputable def calcYaw (left_ear right_ear : Landmark) : ℝ :=
  toDegrees (atan2 ((left_ear.z : ℝ) - (right_ear.z : ℝ))
    ((left_ear.x : ℝ) - (right_ear.x : ℝ)))

/-- Depth-based pitch of the calculator (lines 69-70):
`ToDegrees(atan2(nose.y - ear_mid_y, nose.z))` with `ear_mid_y` the
average of the two ear y coordinates. -/
noncomputable def calcPitch (nose left_ear right_ear : Landmark) : ℝ :=
  toDegrees (atan2 ((nose.y : ℝ) - ((left_ear.y : ℝ) + (right_ear.y : ℝ)) / 2)
    (nose.z : ℝ))

/-- Outcome of the angular checks in `SmartCaptureCalculator::Process`. -/
inductive GateOutcome where
  | rejectYaw : GateOutcome
  | rejectPitch : GateOutcome
  | accept : GateOutcome
deriving DecidableEq, Repr

/-- The angular checks of `Process` (lines 74-82): yaw against
`max_yaw_`, then pitch against the doubled threshold
`max_pitch_ * 2.0`. -/
noncomputable def calcGate (max_yaw max_pitch : ℚ) (yaw pitch : ℝ) :
    GateOutcome :=
  if (max_yaw : ℝ) < |yaw| then .rejectYaw
  else if (max_pitch : ℝ) * 2 < |pitch| then .rejectPitch
  else .accept

/-- Configuration and state of `SmartCaptureCalculator`
(`Open` copies the options; `current_count_` starts at 0). -/
structure CalcState where
  max_captures : ℤ
  max_yaw : ℚ
  max_pitch : ℚ
  padding : ℚ
  current_count : ℤ

/-- One input packet pair for `Process`: the image (its pixel size is
all the crop needs) and the `std::vector<NormalizedLandmarkList>`;
`none` models an empty input stream at this timestamp. -/
structure CalcInput where
  image : Option (ℤ × ℤ)
  landmarks : Option (List (List Landmark))

/-- `SmartCaptureCalculator::Process`.  Output: updated state, the
optional STATUS string, and the optionally emitted crop rectangle.
A protobuf access `landmarks.landmark(i)` past the end of the list is
undefined behaviour; such a run is modelled as `none`. -/
noncomputable def calcProcess (st : CalcState) (inp : CalcInput) :
    Option (CalcState × Option String × Option (ℤ × ℤ × ℤ × ℤ)) :=
  if st.max_captures ≤ st.current_count then some (st, none, none)
  else
    match inp.image, inp.landmarks with
    | none, _ => some (st, none, none)
    | _, none => some (st, none, none)
    | some img, some multi =>
      match multi with
      | [] => some (st, some "No face detected", none)
      | lms :: _ =>
        match lms[1]?, lms[234]?, lms[454]? with
        | some nose, some left_ear, some right_ear =>
          let yaw := calcYaw left_ear right_ear
          let pitch := calcPitch nose left_ear right_ear
          match calcGate st.max_yaw st.max_pitch yaw pitch with
          | .rejectYaw => some (st, some "Face turned too much (Yaw)", none)
          | .rejectPitch =>
            some (st, some "Face tilted up/down too much (Pitch)", none)
          | .accept =>
            some ({ st with current_count := st.current_count + 1 },
              some "Captured!", cropRect lms img.1 img.2 st.padding)
        | _, _, _ => none

/-! ## Concrete fixtures -/

/-- 468 identical centred landmarks: a frame the WASM quality gate
accepts (yaw = pitch = 0). -/
def goodLms : List Landmark := List.replicate 468 ⟨1/2, 1/2, 0⟩

/-- 468 landmarks whose eye outer corners (33, 263) share a y
coordinate but with landmark 263 to the left of landmark 33
(Δx = −3/5 < 0). -/
def rollLms : List Landmark :=
  ((List.replicate 468 (⟨1/2, 1/2, 0⟩ : Landmark)).set 33 ⟨7/10, 3/10, 0⟩).set
    263 ⟨1/10, 3/10, 0⟩

/-- 468 landmarks spanning the normalized box [0.2, 0.2] – [0.6, 0.7]. -/
def exLms : List Landmark :=
  ⟨1/5, 1/5, 0⟩ :: ⟨3/5, 7/10, 0⟩ :: List.replicate 466 ⟨2/5, 2/5, 0⟩

/-- A calculator state fresh out of `Open`: max_captures 5,
max_yaw 15°, max_pitch 10°, padding 0.2, count 0. -/
def calcSt : CalcState :=
  { max_captures := 5, max_yaw := 15, max_pitch := 10,
    padding := 1/5, current_count := 0 }

/-- An initialised WASM processor (constructor followed by
`initialize()`). -/
def wasmReady : WasmState := initSession initProcessor

/-! ## Helper lemmas -/

theorem atan2_zero_zero : atan2 0 0 = 0 := by
  simp [atan2]

theorem atan2_zero_of_pos {x : ℝ} (hx : 0 < x) : atan2 0 x = 0 := by
  simp [atan2, hx]

theorem atan2_of_neg_nonneg {y x : ℝ} (hx : x < 0) (hy : 0 ≤ y) :
    atan2 y x = Real.arctan (y / x) + Real.pi := by
  have h1 : ¬ 0 < x := not_lt.mpr hx.le
  simp [atan2, h1, hx, hy]

theorem atan2_zero_of_neg {x : ℝ} (hx : x < 0) : atan2 0 x = Real.pi := by
  rw [atan2_of_neg_nonneg hx le_rfl]
  simp [Real.arctan_zero]

theorem arctan_third_lt : Real.arctan (1/3) < 167/500 := by
  have hhalf : (167:ℝ)/500 < Real.pi / 2 := by
    have := Real.pi_gt_three
    linarith
  have htan : (1:ℝ)/3 < Real.tan (167/500) := by
    have h := Real.lt_tan (x := 167/500) (by norm_num) hhalf
    linarith
  have := Real.arctan_strictMono htan
  rwa [Real.arctan_tan (by linarith [Real.pi_gt_three]) hhalf] at this

theorem arctan_third_gt : 79/250 < Real.arctan (1/3) := by
  have hc : (1:ℝ) - ((79:ℝ)/250)^2/2 ≤ Real.cos (79/250) :=
    Real.one_sub_sq_div_two_le_cos
  have hc2 : ((118759:ℝ)/125000) ≤ Real.cos (79/250) := by
    have : (1:ℝ) - ((79:ℝ)/250)^2/2 = 118759/125000 := by norm_num
    linarith
  have hcpos : (0:ℝ) < Real.cos (79/250) := by linarith
  have hs : Real.sin (79/250) < 79/250 := Real.sin_lt (by norm_num)
  have htan : Real.tan (79/250) < 1/3 := by
    rw [Real.tan_eq_sin_div_cos, div_lt_iff₀ hcpos]
    nlinarith
  have := Real.arctan_strictMono htan
  rwa [Real.arctan_tan (by linarith [Real.pi_gt_three])
    (by linarith [Real.pi_gt_three])] at this

theorem calcYaw_example :
    calcYaw ⟨-(3/10), 0, 1/10⟩ ⟨3/10, 0, -(1/10)⟩ =
      (Real.pi - Real.arctan (1/3)) * 180 / Real.pi := by
  have hcast : calcYaw ⟨-(3/10), 0, 1/10⟩ ⟨3/10, 0, -(1/10)⟩ =
      toDegrees (atan2 (1/5) (-(3/5))) := by
    simp only [calcYaw]
    norm_num
  rw [hcast, atan2_of_neg_nonneg (by norm_num) (by norm_num)]
  have hdiv : (1/5 : ℝ) / (-(3/5)) = -(1/3) := by norm_num
  rw [hdiv, Real.arctan_neg, toDegrees]
  ring

theorem foldl_min_seed (g : Landmark → ℚ) (l : Landmark)
    (rest : List Landmark) (h : g l ≤ 1) :
    (l :: rest).foldl (fun m lm => min m (g lm)) 1 =
      rest.foldl (fun m lm => min m (g lm)) (g l) := by
  simp [List.foldl_cons, min_eq_right h]

theorem foldl_max_seed (g : Landmark → ℚ) (l : Landmark)
    (rest : List Landmark) (h : 0 ≤ g l) :
    (l :: rest).foldl (fun m lm => max m (g lm)) 0 =
      rest.foldl (fun m lm => max m (g lm)) (g l) := by
  simp [List.foldl_cons, max_eq_right h]

theorem detectFace_fst_fields (st : WasmState) (w h : ℤ)
    (lms : List Landmark) :
    ((detectFace st w h lms).1).initialized = st.initialized ∧
    ((detectFace st w h lms).1).max_yaw = st.max_yaw ∧
    ((detectFace st w h lms).1).max_pitch = st.max_pitch ∧
    ((detectFace st w h lms).1).capture_count = st.capture_count ∧
    ((detectFace st w h lms).1).max_captures = st.max_captures := by
  unfold detectFace
  split
  · exact ⟨rfl, rfl, rfl, rfl, rfl⟩
  · split
    · exact ⟨rfl, rfl, rfl, rfl, rfl⟩
    · split
      · exact ⟨rfl, rfl, rfl, rfl, rfl⟩
      · exact ⟨rfl, rfl, rfl, rfl, rfl⟩

theorem detectFace_snd_congr (st st' : WasmState) (w h : ℤ)
    (lms : List Landmark) (h1 : st.initialized = st'.initialized)
    (h2 : st.max_yaw = st'.max_yaw) (h3 : st.max_pitch = st'.max_pitch) :
    (detectFace st w h lms).2 = (detectFace st' w h lms).2 := by
  unfold detectFace
  rw [h1, h2, h3]
  split
  · rfl
  split
  · rfl
  split
  · rfl
  rfl

theorem getD_replicate_of_lt {a d : Landmark} {n i : ℕ} (h : i < n) :
    (List.replicate n a).getD i d = a := by
  simp [List.getD_eq_getElem?_getD, List.getElem?_replicate_of_lt h]

theorem estYaw_good : EstimateYaw goodLms = 0 := by
  unfold EstimateYaw goodLms
  rw [if_neg (by rw [List.length_replicate]; omega)]
  rw [getD_replicate_of_lt (by norm_num), getD_replicate_of_lt (by norm_num),
    getD_replicate_of_lt (by norm_num)]
  norm_num

theorem estPitch_good : EstimatePitch goodLms = 0 := by
  unfold EstimatePitch goodLms
  rw [if_neg (by rw [List.length_replicate]; omega)]
  rw [getD_replicate_of_lt (by norm_num), getD_replicate_of_lt (by norm_num),
    getD_replicate_of_lt (by norm_num)]
  norm_num

theorem estRoll_good : EstimateRoll goodLms = 0 := by
  unfold EstimateRoll goodLms
  rw [if_neg (by rw [List.length_replicate]; omega)]
  rw [getD_replicate_of_lt (by norm_num), getD_replicate_of_lt (by norm_num)]
  norm_num [atan2_zero_zero]

theorem goodLms_length : goodLms.length = 468 := by
  unfold goodLms
  rw [List.length_replicate]

theorem goodLms_isEmpty : goodLms.isEmpty = false := by
  unfold goodLms
  rw [show (468:ℕ) = 467 + 1 from rfl, List.replicate_succ]
  rfl

theorem detect_good :
    detectFace wasmReady 640 480 goodLms =
      ({ wasmReady with last_landmarks := goodLms },
       ⟨true, 468, "Good quality face detected!", 0, 0, 0, true, goodLms⟩) := by
  unfold detectFace
  rw [if_neg (by simp [wasmReady, initSession, initProcessor])]
  rw [if_neg (by decide : ¬((640:ℤ) < 100 ∨ (480:ℤ) < 100))]
  rw [if_neg (by simp [goodLms_isEmpty, goodLms_length])]
  simp only [estYaw_good, estPitch_good, estRoll_good, goodLms_length]
  norm_num [wasmReady, initSession, initProcessor]

theorem captureFrame_cases (st : WasmState) (w h : ℤ) (lms : List Landmark) :
    (st.max_captures ≤ st.capture_count ∧ captureFrame st w h lms = (st, false)) ∨
    (¬ st.max_captures ≤ st.capture_count ∧
      ((detectFace st w h lms).2.detected && (detectFace st w h lms).2.quality_good) = true ∧
      captureFrame st w h lms =
        ({ (detectFace st w h lms).1 with
            capture_count := ((detectFace st w h lms).1).capture_count + 1 }, true)) ∨
    (¬ st.max_captures ≤ st.capture_count ∧
      ((detectFace st w h lms).2.detected && (detectFace st w h lms).2.quality_good) = false ∧
      captureFrame st w h lms = ((detectFace st w h lms).1, false)) := by
  by_cases hlim : st.max_captures ≤ st.capture_count
  · left
    refine ⟨hlim, ?_⟩
    simp only [captureFrame]
    rw [if_pos hlim]
  · by_cases hacc : ((detectFace st w h lms).2.detected &&
        (detectFace st w h lms).2.quality_good) = true
    · right; left
      refine ⟨hlim, hacc, ?_⟩
      simp only [captureFrame]
      rw [if_neg hlim, if_pos hacc]
    · right; right
      refine ⟨hlim, by simpa using hacc, ?_⟩
      simp only [captureFrame]
      rw [if_neg hlim, if_neg hacc]

theorem iterCaptures_spec (w h : ℤ) (lms : List Landmark) :
    ∀ (n : ℕ) (st : WasmState),
      ((detectFace st w h lms).2.detected && (detectFace st w h lms).2.quality_good) = true →
      st.capture_count ≤ st.max_captures →
      (iterCaptures w h lms st n).1.capture_count =
          min (st.capture_count + n) st.max_captures ∧
      ((iterCaptures w h lms st n).2 : ℤ) =
          (iterCaptures w h lms st n).1.capture_count - st.capture_count := by
  intro n
  induction n with
  | zero =>
    intro st hacc hle
    simp only [iterCaptures]
    refine ⟨by omega, by simp⟩
  | succ n ih =>
    intro st hacc hle
    rcases captureFrame_cases st w h lms with ⟨hlim, heq⟩ | ⟨hlim, hacc2, heq⟩ |
      ⟨hlim, hf, heq⟩
    · have hcnt : st.capture_count = st.max_captures := le_antisymm hle hlim
      obtain ⟨h1, h2⟩ := ih st hacc hle
      simp only [iterCaptures, heq]
      simp
      refine ⟨by omega, by omega⟩
    · set st2 : WasmState :=
        { (detectFace st w h lms).1 with
            capture_count := ((detectFace st w h lms).1).capture_count + 1 } with hst2
      have hfields := detectFace_fst_fields st w h lms
      have hcnt2 : st2.capture_count = st.capture_count + 1 := by
        rw [hst2]; simp [hfields.2.2.2.1]
      have hmax2 : st2.max_captures = st.max_captures := by
        rw [hst2]; simp [hfields.2.2.2.2]
      have hacc2' : ((detectFace st2 w h lms).2.detected &&
          (detectFace st2 w h lms).2.quality_good) = true := by
        have hcong := detectFace_snd_congr st2 st w h lms
          (by rw [hst2]; simp [hfields.1])
          (by rw [hst2]; simp [hfields.2.1])
          (by rw [hst2]; simp [hfields.2.2.1])
        rw [hcong]; exact hacc
      have hle2 : st2.capture_count ≤ st2.max_captures := by omega
      obtain ⟨h1, h2⟩ := ih st2 hacc2' hle2
      simp only [iterCaptures, heq]
      simp
      refine ⟨by omega, by omega⟩
    · rw [hacc] at hf
      exact absurd hf (by simp)

theorem getElem?_eq_some_getD (l : List Landmark) (i : ℕ) (d : Landmark)
    (h : i < l.length) : l[i]? = some (l.getD i d) := by
  rw [List.getElem?_eq_getElem h]
  simp [List.getD_eq_getElem?_getD, List.getElem?_eq_getElem h]

theorem calcProcess_shortcircuit (st : CalcState) (inp : CalcInput)
    (h : st.max_captures ≤ st.current_count) :
    calcProcess st inp = some (st, none, none) := by
  simp only [calcProcess]
  rw [if_pos h]

theorem calcProcess_noface (st : CalcState) (img : ℤ × ℤ)
    (h : st.current_count < st.max_captures) :
    calcProcess st ⟨some img, some []⟩ =
      some (st, some "No face detected", none) := by
  simp only [calcProcess]
  rw [if_neg (not_le.mpr h)]

theorem calcProcess_main (st : CalcState) (img : ℤ × ℤ) (l : List Landmark)
    (rest : List (List Landmark)) (hcnt : st.current_count < st.max_captures)
    (hlen : 455 ≤ l.length) :
    calcProcess st ⟨some img, some (l :: rest)⟩ =
      some (match calcGate st.max_yaw st.max_pitch
          (calcYaw (l.getD 234 ⟨0, 0, 0⟩) (l.getD 454 ⟨0, 0, 0⟩))
          (calcPitch (l.getD 1 ⟨0, 0, 0⟩) (l.getD 234 ⟨0, 0, 0⟩)
            (l.getD 454 ⟨0, 0, 0⟩)) with
        | .rejectYaw => (st, some "Face turned too much (Yaw)", none)
        | .rejectPitch =>
          (st, some "Face tilted up/down too much (Pitch)", none)
        | .accept => ({ st with current_count := st.current_count + 1 },
            some "Captured!", cropRect l img.1 img.2 st.padding)) := by
  have h1 := getElem?_eq_some_getD l 1 ⟨0, 0, 0⟩ (by omega)
  have h234 := getElem?_eq_some_getD l 234 ⟨0, 0, 0⟩ (by omega)
  have h454 := getElem?_eq_some_getD l 454 ⟨0, 0, 0⟩ (by omega)
  simp only [calcProcess, h1, h234, h454]
  rw [if_neg (not_le.mpr hcnt)]
  cases calcGate st.max_yaw st.max_pitch
      (calcYaw (l.getD 234 ⟨0, 0, 0⟩) (l.getD 454 ⟨0, 0, 0⟩))
      (calcPitch (l.getD 1 ⟨0, 0, 0⟩) (l.getD 234 ⟨0, 0, 0⟩)
        (l.getD 454 ⟨0, 0, 0⟩)) <;> rfl

theorem calcProcess_oob (st : CalcState) (img : ℤ × ℤ) (l : List Landmark)
    (rest : List (List Landmark)) (hcnt : st.current_count < st.max_captures)
    (hlen : l.length ≤ 454) :
    calcProcess st ⟨some img, some (l :: rest)⟩ = none := by
  have h454 : l[454]? = none := List.getElem?_eq_none (by omega)
  rcases e1 : l[1]? with _ | a
  · simp only [calcProcess, e1]
    rw [if_neg (not_le.mpr hcnt)]
  · rcases e2 : l[234]? with _ | b
    · simp only [calcProcess, e1, e2]
      rw [if_neg (not_le.mpr hcnt)]
    · simp only [calcProcess, e1, e2, h454]
      rw [if_neg (not_le.mpr hcnt)]

theorem calcGate_eq_rejectYaw {my mp : ℚ} {y p : ℝ} (h : (my : ℝ) < |y|) :
    calcGate my mp y p = .rejectYaw := by
  simp only [calcGate]
  rw [if_pos h]

theorem calcGate_eq_rejectPitch {my mp : ℚ} {y p : ℝ} (h1 : ¬ (my : ℝ) < |y|)
    (h2 : (mp : ℝ) * 2 < |p|) : calcGate my mp y p = .rejectPitch := by
  simp only [calcGate]
  rw [if_neg h1, if_pos h2]

theorem calcGate_eq_accept {my mp : ℚ} {y p : ℝ} (h1 : ¬ (my : ℝ) < |y|)
    (h2 : ¬ (mp : ℝ) * 2 < |p|) : calcGate my mp y p = .accept := by
  simp only [calcGate]
  rw [if_neg h1, if_neg h2]

theorem calcProcess_status_mem (st : CalcState) (inp : CalcInput)
    (r : CalcState × Option String × Option (ℤ × ℤ × ℤ × ℤ)) (s : String)
    (h : calcProcess st inp = some r) (hs : r.2.1 = some s) :
    s = "No face detected" ∨ s = "Face turned too much (Yaw)" ∨
    s = "Face tilted up/down too much (Pitch)" ∨ s = "Captured!" := by
  by_cases hlim : st.max_captures ≤ st.current_count
  · rw [calcProcess_shortcircuit st inp hlim] at h
    cases h
    simp at hs
  · obtain ⟨oimg, olms⟩ := inp
    rcases oimg with _ | img
    · simp only [calcProcess] at h
      rw [if_neg hlim] at h
      cases h
      simp at hs
    · rcases olms with _ | multi
      · simp only [calcProcess] at h
        rw [if_neg hlim] at h
        cases h
        simp at hs
      · rcases multi with _ | ⟨l, rest⟩
        · simp only [calcProcess] at h
          rw [if_neg hlim] at h
          cases h
          simp only [Option.some.injEq] at hs
          exact Or.inl hs.symm
        · rcases e1 : l[1]? with _ | a
          · simp only [calcProcess, e1] at h
            rw [if_neg hlim] at h
            cases h
          · rcases e2 : l[234]? with _ | b
            · simp only [calcProcess, e1, e2] at h
              rw [if_neg hlim] at h
              cases h
            · rcases e3 : l[454]? with _ | c
              · simp only [calcProcess, e1, e2, e3] at h
                rw [if_neg hlim] at h
                cases h
              · simp only [calcProcess, e1, e2, e3] at h
                rw [if_neg hlim] at h
                rcases hg : calcGate st.max_yaw st.max_pitch (calcYaw b c)
                    (calcPitch a b c) with _ | _ | _ <;> rw [hg] at h <;> cases h <;>
                  simp only [Option.some.injEq] at hs
                · exact Or.inr (Or.inl hs.symm)
                · exact Or.inr (Or.inr (Or.inl hs.symm))
                · exact Or.inr (Or.inr (Or.inr hs.symm))

theorem detectFace_noface (st : WasmState) (w h : ℤ) (lms : List Landmark)
    (hinit : st.initialized = true) (hw : ¬ w < 100) (hh : ¬ h < 100)
    (hlen : lms.length < 468) :
    detectFace st w h lms =
      ({ st with last_landmarks := lms },
        ⟨false, 0, "No face detected", 0, 0, 0, false, []⟩) := by
  unfold detectFace
  rw [if_neg (by simp [hinit]), if_neg (not_or.mpr ⟨hw, hh⟩),
    if_pos (Or.inr hlen)]

theorem detectFace_detected (st : WasmState) (w h : ℤ) (lms : List Landmark)
    (hinit : st.initialized = true) (hw : ¬ w < 100) (hh : ¬ h < 100)
    (hlen : 468 ≤ lms.length) :
    detectFace st w h lms =
      ({ st with last_landmarks := lms },
        ⟨true, lms.length,
          if (|EstimateYaw lms| ≤ st.max_yaw : Bool) &&
              (|EstimatePitch lms| ≤ st.max_pitch : Bool) then
            "Good quality face detected!"
          else if (|EstimateYaw lms| ≤ st.max_yaw : Bool) = false then
            "Face turned too much (Yaw: " ++ toString (trunc (EstimateYaw lms)) ++ "째)"
          else if (|EstimatePitch lms| ≤ st.max_pitch : Bool) = false then
            "Face tilted too much (Pitch: " ++
              toString (trunc (EstimatePitch lms)) ++ "째)"
          else "",
          EstimateYaw lms, EstimatePitch lms, EstimateRoll lms,
          (|EstimateYaw lms| ≤ st.max_yaw : Bool) &&
            (|EstimatePitch lms| ≤ st.max_pitch : Bool), lms⟩) := by
  have hne : lms.isEmpty = false := by
    cases lms with
    | nil => simp at hlen
    | cons a t => rfl
  unfold detectFace
  rw [if_neg (by simp [hinit]), if_neg (not_or.mpr ⟨hw, hh⟩),
    if_neg (by rw [hne]; simp; omega)]

theorem foldl_minx_replicate : ∀ (n : ℕ) (acc : ℚ) (c : Landmark), 0 < n →
    (List.replicate n c).foldl (fun m lm => min m lm.x) acc = min acc c.x := by
  intro n
  induction n with
  | zero => intro acc c h; exact absurd h (by omega)
  | succ n ih =>
    intro acc c _
    rw [List.replicate_succ, List.foldl_cons]
    rcases Nat.eq_zero_or_pos n with h0 | hpos
    · subst h0; simp
    · rw [ih _ _ hpos, min_assoc, min_self]

theorem foldl_maxx_replicate : ∀ (n : ℕ) (acc : ℚ) (c : Landmark), 0 < n →
    (List.replicate n c).foldl (fun m lm => max m lm.x) acc = max acc c.x := by
  intro n
  induction n with
  | zero => intro acc c h; exact absurd h (by omega)
  | succ n ih =>
    intro acc c _
    rw [List.replicate_succ, List.foldl_cons]
    rcases Nat.eq_zero_or_pos n with h0 | hpos
    · subst h0; simp
    · rw [ih _ _ hpos, max_assoc, max_self]

theorem foldl_miny_replicate : ∀ (n : ℕ) (acc : ℚ) (c : Landmark), 0 < n →
    (List.replicate n c).foldl (fun m lm => min m lm.y) acc = min acc c.y := by
  intro n
  induction n with
  | zero => intro acc c h; exact absurd h (by omega)
  | succ n ih =>
    intro acc c _
    rw [List.replicate_succ, List.foldl_cons]
    rcases Nat.eq_zero_or_pos n with h0 | hpos
    · subst h0; simp
    · rw [ih _ _ hpos, min_assoc, min_self]

theorem foldl_maxy_replicate : ∀ (n : ℕ) (acc : ℚ) (c : Landmark), 0 < n →
    (List.replicate n c).foldl (fun m lm => max m lm.y) acc = max acc c.y := by
  intro n
  induction n with
  | zero => intro acc c h; exact absurd h (by omega)
  | succ n ih =>
    intro acc c _
    rw [List.replicate_succ, List.foldl_cons]
    rcases Nat.eq_zero_or_pos n with h0 | hpos
    · subst h0; simp
    · rw [ih _ _ hpos, max_assoc, max_self]

theorem cropRect_example :
    cropRect exLms 1000 1000 (1/5) = some (160, 150, 480, 600) := by
  have t1 : Int.tdiv 400 2 = 200 := by decide
  have t2 : Int.tdiv 500 2 = 250 := by decide
  have t3 : Int.tdiv 480 2 = 240 := by decide
  have t4 : Int.tdiv 600 2 = 300 := by decide
  unfold cropRect exLms
  simp only [List.foldl_cons]
  rw [foldl_minx_replicate 466 _ _ (by norm_num),
    foldl_maxx_replicate 466 _ _ (by norm_num),
    foldl_miny_replicate 466 _ _ (by norm_num),
    foldl_maxy_replicate 466 _ _ (by norm_num)]
  norm_num [cropFromBox, trunc, min_def, max_def, t1, t2, t3, t4]

theorem cropRect_eq_spec (lms : List Landmark) (img_w img_h : ℤ)
    (padding : ℚ) (hne : lms ≠ [])
    (hrange : ∀ lm ∈ lms, 0 ≤ lm.x ∧ lm.x ≤ 1 ∧ 0 ≤ lm.y ∧ lm.y ≤ 1) :
    cropRect lms img_w img_h padding = cropRectSpec lms img_w img_h padding := by
  cases lms with
  | nil => exact absurd rfl hne
  | cons l rest =>
    have hl := hrange l (List.mem_cons_self l rest)
    simp only [cropRect, cropRectSpec]
    rw [List.foldl_cons, List.foldl_cons, List.foldl_cons, List.foldl_cons]
    rw [min_eq_right hl.2.1, max_eq_right hl.1, min_eq_right hl.2.2.2,
      max_eq_right hl.2.2.1]

theorem rollLms_length : rollLms.length = 468 := by
  unfold rollLms
  rw [List.length_set, List.length_set, List.length_replicate]

theorem rollLms_getD33 : rollLms.getD 33 ⟨0, 0, 0⟩ = ⟨7/10, 3/10, 0⟩ := by
  unfold rollLms
  rw [List.getD_eq_getElem?_getD,
    List.getElem?_set_ne (show (263:ℕ) ≠ 33 by omega),
    List.getElem?_set_self (by rw [List.length_replicate]; omega)]
  rfl

theorem rollLms_getD263 : rollLms.getD 263 ⟨0, 0, 0⟩ = ⟨1/10, 3/10, 0⟩ := by
  unfold rollLms
  rw [List.getD_eq_getElem?_getD,
    List.getElem?_set_self (by rw [List.length_set, List.length_replicate]; omega)]
  rfl

theorem estRoll_rollLms : EstimateRoll rollLms = 180 := by
  unfold EstimateRoll
  rw [if_neg (by rw [rollLms_length]; omega)]
  rw [rollLms_getD33, rollLms_getD263]
  have hdy : (((3:ℚ)/10 : ℚ) : ℝ) - (((3:ℚ)/10 : ℚ) : ℝ) = 0 := by ring
  have hdx : (((1:ℚ)/10 : ℚ) : ℝ) - (((7:ℚ)/10 : ℚ) : ℝ) = -(3/5) := by
    push_cast
    norm_num
  simp only [hdy, hdx]
  rw [atan2_zero_of_neg (by norm_num : (-(3/5) : ℝ) < 0)]
  field_simp

theorem captureFrame_good :
    captureFrame wasmReady 640 480 goodLms =
      ({ wasmReady with last_landmarks := goodLms, capture_count := 1 }, true) := by
  rcases captureFrame_cases wasmReady 640 480 goodLms with ⟨hlim, _⟩ |
    ⟨_, _, heq⟩ | ⟨_, hf, _⟩
  · exact absurd hlim (by decide)
  · rw [heq, detect_good]
    simp [wasmReady, initSession, initProcessor]
  · rw [detect_good] at hf
    simp at hf

theorem calcProcess_state (st : CalcState) (inp : CalcInput)
    (r : CalcState × Option String × Option (ℤ × ℤ × ℤ × ℤ))
    (h : calcProcess st inp = some r) :
    r.1 = st ∨ (st.current_count < st.max_captures ∧
      r.1 = { st with current_count := st.current_count + 1 }) := by
  by_cases hlim : st.max_captures ≤ st.current_count
  · rw [calcProcess_shortcircuit st inp hlim] at h
    cases h
    exact Or.inl rfl
  · obtain ⟨oimg, olms⟩ := inp
    rcases oimg with _ | img
    · simp only [calcProcess] at h
      rw [if_neg hlim] at h
      cases h
      exact Or.inl rfl
    · rcases olms with _ | multi
      · simp only [calcProcess] at h
        rw [if_neg hlim] at h
        cases h
        exact Or.inl rfl
      · rcases multi with _ | ⟨l, rest⟩
        · simp only [calcProcess] at h
          rw [if_neg hlim] at h
          cases h
          exact Or.inl rfl
        · rcases e1 : l[1]? with _ | a
          · simp only [calcProcess, e1] at h
            rw [if_neg hlim] at h
            cases h
          · rcases e2 : l[234]? with _ | b
            · simp only [calcProcess, e1, e2] at h
              rw [if_neg hlim] at h
              cases h
            · rcases e3 : l[454]? with _ | c
              · simp only [calcProcess, e1, e2, e3] at h
                rw [if_neg hlim] at h
                cases h
              · simp only [calcProcess, e1, e2, e3] at h
                rw [if_neg hlim] at h
                rcases hg : calcGate st.max_yaw st.max_pitch (calcYaw b c)
                    (calcPitch a b c) with _ | _ | _ <;> rw [hg] at h <;> cases h
                · exact Or.inl rfl
                · exact Or.inl rfl
                · exact Or.inr ⟨by omega, rfl⟩

/-! ## Claim theorems -/

/-- C1 (counterexample): the claim asserts that for fewer than 468
landmarks both call sites bounds-check and return the no-face outcome.
At the calculator call site this fails: with one face whose landmark
list holds a single point and a fresh state (count 0 < max 5), `Process`
reads `landmarks.landmark(1)` past the end of the container instead of
emitting the "No face detected" status — the run aborts in undefined
behaviour (`none`), so no status at all is produced. -/
theorem c1_counterexample :
    calcProcess calcSt ⟨some (1000, 1000), some [[⟨1/2, 1/2, 0⟩]]⟩ = none :=
  calcProcess_oob calcSt (1000, 1000) [⟨1/2, 1/2, 0⟩] [] (by decide) (by decide)

/-- C1 (amended): for fewer than 468 landmarks, the WASM estimators
return the zero pose and `detectFace` returns the no-face outcome; the
calculator call site returns the no-face status only when the face list
is empty, and for a nonempty landmark list with at most 454 points its
unchecked index lookups (1, 234, 454) read past the container. -/
theorem c1_amended_safety :
    (∀ lms : List Landmark, lms.length < 468 →
        EstimateYaw lms = 0 ∧ EstimatePitch lms = 0 ∧ EstimateRoll lms = 0) ∧
    (∀ (st : WasmState) (w h : ℤ) (lms : List Landmark),
        st.initialized = true → ¬ w < 100 → ¬ h < 100 → lms.length < 468 →
        (detectFace st w h lms).2 =
          ⟨false, 0, "No face detected", 0, 0, 0, false, []⟩) ∧
    (∀ (st : CalcState) (img : ℤ × ℤ), st.current_count < st.max_captures →
        calcProcess st ⟨some img, some []⟩ =
          some (st, some "No face detected", none)) ∧
    (∀ (st : CalcState) (img : ℤ × ℤ) (l : List Landmark)
        (rest : List (List Landmark)), st.current_count < st.max_captures →
        l.length ≤ 454 →
        calcProcess st ⟨some img, some (l :: rest)⟩ = none) := by
  refine ⟨?_, ?_, calcProcess_noface, calcProcess_oob⟩
  · intro lms h
    refine ⟨?_, ?_, ?_⟩
    · simp only [EstimateYaw]
      rw [if_pos h]
    · simp only [EstimatePitch]
      rw [if_pos h]
    · simp only [EstimateRoll]
      rw [if_pos h]
  · intro st w h lms hinit hw hh hlen
    rw [detectFace_noface st w h lms hinit hw hh hlen]

/-- C9: `getLandmark` is total — a negative index or one at or past the
stored landmark count yields the default landmark (0, 0, 0); an
in-range index yields the stored element. -/
theorem c9_get_landmark_total :
    (∀ (st : WasmState) (i : ℤ), i < 0 → getLandmark st i = ⟨0, 0, 0⟩) ∧
    (∀ (st : WasmState) (i : ℤ), (st.last_landmarks.length : ℤ) ≤ i →
        getLandmark st i = ⟨0, 0, 0⟩) ∧
    (∀ (st : WasmState) (i : ℤ), 0 ≤ i →
        i < (st.last_landmarks.length : ℤ) →
        getLandmark st i = st.last_landmarks.getD i.toNat ⟨0, 0, 0⟩) := by
  refine ⟨?_, ?_, ?_⟩
  · intro st i hneg
    unfold getLandmark
    rw [if_neg (by omega)]
  · intro st i hge
    unfold getLandmark
    rw [if_neg (by omega)]
  · intro st i h0 hlt
    unfold getLandmark
    rw [if_pos ⟨h0, hlt⟩]

/-- C10: a `captureFrame` call that returns false leaves
`capture_count_` unchanged; a call that returns true increments it by
exactly one and leaves the configuration fields (`max_yaw_`,
`max_pitch_`, `max_captures_`, `initialized_`) unmodified. -/
theorem c10_capture_frame_effect :
    (∀ (st : WasmState) (w h : ℤ) (lms : List Landmark),
        (captureFrame st w h lms).2 = false →
        ((captureFrame st w h lms).1).capture_count = st.capture_count) ∧
    (∀ (st : WasmState) (w h : ℤ) (lms : List Landmark),
        (captureFrame st w h lms).2 = true →
        ((captureFrame st w h lms).1).capture_count = st.capture_count + 1 ∧
        ((captureFrame st w h lms).1).max_yaw = st.max_yaw ∧
        ((captureFrame st w h lms).1).max_pitch = st.max_pitch ∧
        ((captureFrame st w h lms).1).max_captures = st.max_captures ∧
        ((captureFrame st w h lms).1).initialized = st.initialized) := by
  constructor
  · intro st w h lms hb
    rcases captureFrame_cases st w h lms with ⟨_, heq⟩ | ⟨_, _, heq⟩ |
      ⟨_, _, heq⟩
    · rw [heq]
    · rw [heq] at hb
      simp at hb
    · rw [heq]
      exact (detectFace_fst_fields st w h lms).2.2.2.1
  · intro st w h lms hb
    have hfields := detectFace_fst_fields st w h lms
    rcases captureFrame_cases st w h lms with ⟨_, heq⟩ | ⟨_, _, heq⟩ |
      ⟨_, _, heq⟩
    · rw [heq] at hb
      simp at hb
    · rw [heq]
      refine ⟨?_, hfields.2.1, hfields.2.2.1, hfields.2.2.2.2, hfields.1⟩
      show ((detectFace st w h lms).1).capture_count + 1 = st.capture_count + 1
      rw [hfields.2.2.2.1]
    · rw [heq] at hb
      simp at hb

/-- C7: with the limit reached, the calculator's `Process` returns at
once — no status, no crop, no state change, and in particular no
landmark access or pose estimation even on malformed input — and the
WASM `captureFrame` returns false with the state untouched; starting
from count 0 with `max_captures = m` and an always-accepted frame,
m + 1 calls produce exactly m successful increments. -/
theorem c7_capture_limit :
    (∀ (st : CalcState) (inp : CalcInput),
        st.max_captures ≤ st.current_count →
        calcProcess st inp = some (st, none, none)) ∧
    (∀ (st : WasmState) (w h : ℤ) (lms : List Landmark),
        st.max_captures ≤ st.capture_count →
        captureFrame st w h lms = (st, false)) ∧
    (∀ (m : ℕ) (st : WasmState) (w h : ℤ) (lms : List Landmark),
        st.capture_count = 0 → st.max_captures = (m : ℤ) →
        ((detectFace st w h lms).2.detected &&
          (detectFace st w h lms).2.quality_good) = true →
        (iterCaptures w h lms st (m + 1)).2 = m ∧
        (iterCaptures w h lms st (m + 1)).1.capture_count = (m : ℤ)) := by
  refine ⟨calcProcess_shortcircuit, ?_, ?_⟩
  · intro st w h lms hlim
    rcases captureFrame_cases st w h lms with ⟨_, heq⟩ | ⟨hn, _, _⟩ |
      ⟨hn, _, _⟩
    · exact heq
    · exact absurd hlim hn
    · exact absurd hlim hn
  · intro m st w h lms hc hm hacc
    have hle : st.capture_count ≤ st.max_captures := by omega
    obtain ⟨h1, h2⟩ := iterCaptures_spec w h lms (m + 1) st hacc hle
    constructor
    · omega
    · omega

/-- C8 (counterexample): the claim asserts `0 ≤ current_count ≤
max_captures` is preserved by every exposed operation, including
`setMaxCaptures`.  It is not: after one accepted capture (count 1),
`setMaxCaptures(0)` installs the new maximum without clamping, leaving
count 1 > max 0. -/
theorem c8_counterexample :
    (setMaxCaptures (captureFrame wasmReady 640 480 goodLms).1 0).capture_count
        = 1 ∧
    (setMaxCaptures (captureFrame wasmReady 640 480 goodLms).1 0).max_captures
        = 0 ∧
    ¬ ((setMaxCaptures (captureFrame wasmReady 640 480 goodLms).1 0).capture_count ≤
        (setMaxCaptures (captureFrame wasmReady 640 480 goodLms).1 0).max_captures) := by
  rw [captureFrame_good]
  exact ⟨rfl, rfl, by decide⟩

/-- C8 (amended): `current_count` never goes negative and only returns
to 0 through explicit re-initialisation (`initialize`/`resetCaptures`);
`current_count ≤ max_captures` is preserved by `captureFrame` and by
the calculator's `Process`, but `setMaxCaptures` installs the new
maximum without clamping the count (it leaves the count untouched, so
it can end up above the new maximum). -/
theorem c8_amended_invariant :
    (∀ (st : WasmState) (w h : ℤ) (lms : List Landmark),
        0 ≤ st.capture_count →
        0 ≤ ((captureFrame st w h lms).1).capture_count) ∧
    (∀ (st : WasmState) (w h : ℤ) (lms : List Landmark),
        st.capture_count ≤ st.max_captures →
        ((captureFrame st w h lms).1).capture_count ≤
          ((captureFrame st w h lms).1).max_captures) ∧
    (∀ (st : WasmState) (c : ℤ),
        (setMaxCaptures st c).capture_count = st.capture_count) ∧
    (∀ st : WasmState, (initSession st).capture_count = 0) ∧
    (∀ st : WasmState, (resetCaptures st).capture_count = 0) ∧
    (∀ (st : CalcState) (inp : CalcInput)
        (r : CalcState × Option String × Option (ℤ × ℤ × ℤ × ℤ)),
        calcProcess st inp = some r → 0 ≤ st.current_count →
        st.current_count ≤ st.max_captures →
        0 ≤ r.1.current_count ∧ r.1.current_count ≤ r.1.max_captures) := by
  refine ⟨?_, ?_, fun st c => rfl, fun st => rfl, fun st => rfl, ?_⟩
  · intro st w h lms h0
    have hfields := detectFace_fst_fields st w h lms
    rcases captureFrame_cases st w h lms with ⟨_, heq⟩ | ⟨_, _, heq⟩ |
      ⟨_, _, heq⟩
    · rw [heq]
      exact h0
    · rw [heq]
      show 0 ≤ ((detectFace st w h lms).1).capture_count + 1
      have := hfields.2.2.2.1
      omega
    · rw [heq]
      show 0 ≤ ((detectFace st w h lms).1).capture_count
      have := hfields.2.2.2.1
      omega
  · intro st w h lms hle
    have h1 := (detectFace_fst_fields st w h lms).2.2.2.1
    have h2 := (detectFace_fst_fields st w h lms).2.2.2.2
    rcases captureFrame_cases st w h lms with ⟨_, heq⟩ | ⟨hn, _, heq⟩ |
      ⟨_, _, heq⟩
    · rw [heq]
      exact hle
    · rw [heq]
      show ((detectFace st w h lms).1).capture_count + 1 ≤
        ((detectFace st w h lms).1).max_captures
      omega
    · rw [heq]
      show ((detectFace st w h lms).1).capture_count ≤
        ((detectFace st w h lms).1).max_captures
      omega
  · intro st inp r h h0 hle
    rcases calcProcess_state st inp r h with heq | ⟨hlt, heq⟩
    · rw [heq]
      exact ⟨h0, hle⟩
    · rw [heq]
      constructor
      · show 0 ≤ st.current_count + 1
        omega
      · show st.current_count + 1 ≤ st.max_captures
        omega

/-- C4: the calculator's gate passes pitch exactly when |pitch| is at
most the doubled threshold `max_pitch × 2`, while the WASM site's
quality flag compares |pitch| directly against `max_pitch` (and |yaw|
against `max_yaw`) with no doubling; concretely, under the doubled
policy with max_pitch = 10 an estimated pitch of 18° passes. -/
theorem c4_pitch_threshold_policy :
    (∀ (my mp : ℚ) (y p : ℝ), ¬ (my : ℝ) < |y| →
        (calcGate my mp y p = .accept ↔ |p| ≤ (mp : ℝ) * 2)) ∧
    (∀ (st : WasmState) (w h : ℤ) (lms : List Landmark),
        st.initialized = true → ¬ w < 100 → ¬ h < 100 → 468 ≤ lms.length →
        ((detectFace st w h lms).2.quality_good = true ↔
          |EstimateYaw lms| ≤ st.max_yaw ∧
            |EstimatePitch lms| ≤ st.max_pitch)) ∧
    calcGate 15 10 0 18 = .accept := by
  refine ⟨?_, ?_, ?_⟩
  · intro my mp y p h1
    constructor
    · intro hacc
      by_contra hgt
      rw [calcGate_eq_rejectPitch h1 (not_le.mp hgt)] at hacc
      cases hacc
    · intro hle
      exact calcGate_eq_accept h1 (not_lt.mpr hle)
  · intro st w h lms hinit hw hh hlen
    rw [detectFace_detected st w h lms hinit hw hh hlen]
    simp
  · refine calcGate_eq_accept ?_ ?_
    · rw [abs_of_nonneg le_rfl]
      push_cast
      norm_num
    · rw [abs_of_nonneg (by norm_num : (0:ℝ) ≤ 18)]
      push_cast
      norm_num

/-- C6: the crop computation agrees with the spec's description — the
true min/max bounding box over the landmarks, pixel conversion with
integer truncation, padding about the box centre, clamping to the image
and the silent skip unless both extents are positive — for every
nonempty landmark set with normalized coordinates; on the spec's worked
example (box [0.2,0.2]–[0.6,0.7], image 1000×1000, padding 0.2) the
emitted rectangle is (160, 150, 480, 600). -/
theorem c6_crop_rect :
    (∀ (lms : List Landmark) (img_w img_h : ℤ) (padding : ℚ),
        lms ≠ [] →
        (∀ lm ∈ lms, 0 ≤ lm.x ∧ lm.x ≤ 1 ∧ 0 ≤ lm.y ∧ lm.y ≤ 1) →
        cropRect lms img_w img_h padding = cropRectSpec lms img_w img_h padding) ∧
    cropRect exLms 1000 1000 (1/5) = some (160, 150, 480, 600) :=
  ⟨cropRect_eq_spec, cropRect_example⟩

/-- C2: the depth-based estimator of the calculator computes
yaw = ToDegrees(atan2(leftEar.z − rightEar.z, leftEar.x − rightEar.x))
and pitch = ToDegrees(atan2(nose.y − earMidY, nose.z)) with earMidY the
average ear height, applied by `Process` to landmarks 1 (nose),
234 (left ear) and 454 (right ear) of the first face; on the spec's
example (left ear (−0.3, 0, 0.1), right ear (0.3, 0, −0.1)) the yaw is
atan2(0.2, −0.6) in degrees, within 1° of 161.57°. -/
theorem c2_depth_estimator :
    (∀ le re : Landmark, calcYaw le re =
        toDegrees (atan2 ((le.z : ℝ) - (re.z : ℝ)) ((le.x : ℝ) - (re.x : ℝ)))) ∧
    (∀ n le re : Landmark, calcPitch n le re =
        toDegrees (atan2 ((n.y : ℝ) - ((le.y : ℝ) + (re.y : ℝ)) / 2)
          (n.z : ℝ))) ∧
    (∀ (st : CalcState) (img : ℤ × ℤ) (l : List Landmark)
        (rest : List (List Landmark)),
        st.current_count < st.max_captures → l.length = 468 →
        calcProcess st ⟨some img, some (l :: rest)⟩ =
          some (match calcGate st.max_yaw st.max_pitch
              (calcYaw (l.getD 234 ⟨0, 0, 0⟩) (l.getD 454 ⟨0, 0, 0⟩))
              (calcPitch (l.getD 1 ⟨0, 0, 0⟩) (l.getD 234 ⟨0, 0, 0⟩)
                (l.getD 454 ⟨0, 0, 0⟩)) with
            | .rejectYaw => (st, some "Face turned too much (Yaw)", none)
            | .rejectPitch =>
              (st, some "Face tilted up/down too much (Pitch)", none)
            | .accept => ({ st with current_count := st.current_count + 1 },
                some "Captured!", cropRect l img.1 img.2 st.padding))) ∧
    |calcYaw ⟨-(3/10), 0, 1/10⟩ ⟨3/10, 0, -(1/10)⟩ - 16157/100| < 1 := by
  refine ⟨fun le re => rfl, fun n le re => rfl, ?_, ?_⟩
  · intro st img l rest hcnt hlen
    exact calcProcess_main st img l rest hcnt (by omega)
  · rw [calcYaw_example]
    have hpi := Real.pi_gt_d6
    have hpi' := Real.pi_lt_d6
    have hpi0 := Real.pi_pos
    have ha1 := arctan_third_gt
    have ha2 := arctan_third_lt
    have hub : (Real.pi - Real.arctan (1/3)) * 180 / Real.pi < 16257/100 := by
      rw [div_lt_iff₀ hpi0]
      nlinarith
    have hlb : (16057:ℝ)/100 <
        (Real.pi - Real.arctan (1/3)) * 180 / Real.pi := by
      rw [lt_div_iff₀ hpi0]
      nlinarith
    rw [abs_lt]
    constructor
    · linarith
    · linarith

/-- C3 (counterexample): the claim asserts roll = 0° whenever landmarks
33 and 263 have equal y.  With equal heights but landmark 263 at
x = 0.1 left of landmark 33 at x = 0.7 (Δx = −0.6 < 0), the code
computes roll = atan2(0, −0.6)·180/π = 180°, not 0°. -/
theorem c3_counterexample :
    EstimateRoll rollLms = 180 ∧ (180 : ℝ) ≠ 0 :=
  ⟨estRoll_rollLms, by norm_num⟩

/-- C3 (amended): for every 468-landmark set the ratio-based estimator
returns the claimed yaw, pitch and roll formulas; symmetric eye
distances about the nose give yaw = 0°; and equal eye heights give
roll = 0° provided landmark 263 does not lie strictly left of
landmark 33 (Δx ≥ 0) — for Δx < 0, atan2(0, Δx) is π, giving 180°. -/
theorem c3_amended_ratio_estimator :
    (∀ lms : List Landmark, lms.length = 468 →
        EstimateYaw lms =
          (|(lms.getD 1 ⟨0, 0, 0⟩).x - (lms.getD 33 ⟨0, 0, 0⟩).x| -
              |(lms.getD 263 ⟨0, 0, 0⟩).x - (lms.getD 1 ⟨0, 0, 0⟩).x|) /
            (|(lms.getD 1 ⟨0, 0, 0⟩).x - (lms.getD 33 ⟨0, 0, 0⟩).x| +
              |(lms.getD 263 ⟨0, 0, 0⟩).x - (lms.getD 1 ⟨0, 0, 0⟩).x| +
              1/1000) * 45) ∧
    (∀ lms : List Landmark, lms.length = 468 →
        EstimatePitch lms =
          (|(lms.getD 10 ⟨0, 0, 0⟩).y - (lms.getD 168 ⟨0, 0, 0⟩).y| -
              |(lms.getD 152 ⟨0, 0, 0⟩).y - (lms.getD 168 ⟨0, 0, 0⟩).y|) /
            (|(lms.getD 10 ⟨0, 0, 0⟩).y - (lms.getD 168 ⟨0, 0, 0⟩).y| +
              |(lms.getD 152 ⟨0, 0, 0⟩).y - (lms.getD 168 ⟨0, 0, 0⟩).y| +
              1/1000) * 30) ∧
    (∀ lms : List Landmark, lms.length = 468 →
        EstimateRoll lms =
          atan2 (((lms.getD 263 ⟨0, 0, 0⟩).y : ℝ) - ((lms.getD 33 ⟨0, 0, 0⟩).y : ℝ))
            (((lms.getD 263 ⟨0, 0, 0⟩).x : ℝ) - ((lms.getD 33 ⟨0, 0, 0⟩).x : ℝ)) *
            180 / Real.pi) ∧
    (∀ lms : List Landmark, lms.length = 468 →
        (lms.getD 1 ⟨0, 0, 0⟩).x - (lms.getD 33 ⟨0, 0, 0⟩).x =
          (lms.getD 263 ⟨0, 0, 0⟩).x - (lms.getD 1 ⟨0, 0, 0⟩).x →
        EstimateYaw lms = 0) ∧
    (∀ lms : List Landmark, lms.length = 468 →
        (lms.getD 33 ⟨0, 0, 0⟩).y = (lms.getD 263 ⟨0, 0, 0⟩).y →
        (lms.getD 33 ⟨0, 0, 0⟩).x ≤ (lms.getD 263 ⟨0, 0, 0⟩).x →
        EstimateRoll lms = 0) := by
  refine ⟨?_, ?_, ?_, ?_, ?_⟩
  · intro lms h
    simp only [EstimateYaw]
    rw [if_neg (by omega)]
  · intro lms h
    simp only [EstimatePitch]
    rw [if_neg (by omega)]
  · intro lms h
    simp only [EstimateRoll]
    rw [if_neg (by omega)]
  · intro lms h hsym
    simp only [EstimateYaw]
    rw [if_neg (by omega), hsym, sub_self, zero_div, zero_mul]
  · intro lms h hy hx
    simp only [EstimateRoll]
    rw [if_neg (by omega)]
    have hdy : ((lms.getD 263 ⟨0, 0, 0⟩).y : ℝ) -
        ((lms.getD 33 ⟨0, 0, 0⟩).y : ℝ) = 0 := by
      rw [hy, sub_self]
    have hdx : (0 : ℝ) ≤ ((lms.getD 263 ⟨0, 0, 0⟩).x : ℝ) -
        ((lms.getD 33 ⟨0, 0, 0⟩).x : ℝ) := by
      rw [sub_nonneg]
      exact_mod_cast hx
    rw [hdy]
    rcases lt_or_eq_of_le hdx with hpos | hzero
    · rw [atan2_zero_of_pos hpos, zero_mul, zero_div]
    · rw [← hzero, atan2_zero_zero, zero_mul, zero_div]

/-- C5 (counterexample): the claim asserts both call sites carry one
of the four verbatim reason strings.  The WASM call site does not: an
accepted frame carries "Good quality face detected!", which is none of
"No face detected", "Face turned too much (Yaw)", "Face tilted up/down
too much (Pitch)", "Captured!" (its reject messages likewise embed the
numeric angle). -/
theorem c5_counterexample :
    (detectFace wasmReady 640 480 goodLms).2.message =
        "Good quality face detected!" ∧
    ¬ ((detectFace wasmReady 640 480 goodLms).2.message ∈
        ["No face detected", "Face turned too much (Yaw)",
         "Face tilted up/down too much (Pitch)", "Captured!"]) := by
  rw [detect_good]
  exact ⟨rfl, by decide⟩

/-- C5 (amended): both call sites check no-face first, then yaw, then
pitch.  The calculator emits exactly the four verbatim strings
"No face detected" / "Face turned too much (Yaw)" / "Face tilted
up/down too much (Pitch)" / "Captured!"; the WASM site instead carries
its own messages ("No face detected", "Face turned too much (Yaw: N째)",
"Face tilted too much (Pitch: N째)", "Good quality face detected!"). -/
theorem c5_amended_gate_order :
    (∀ (st : CalcState) (img : ℤ × ℤ), st.current_count < st.max_captures →
        calcProcess st ⟨some img, some []⟩ =
          some (st, some "No face detected", none)) ∧
    (∀ (st : CalcState) (img : ℤ × ℤ) (l : List Landmark)
        (rest : List (List Landmark)), st.current_count < st.max_captures →
        455 ≤ l.length →
        (st.max_yaw : ℝ) <
            |calcYaw (l.getD 234 ⟨0, 0, 0⟩) (l.getD 454 ⟨0, 0, 0⟩)| →
        calcProcess st ⟨some img, some (l :: rest)⟩ =
          some (st, some "Face turned too much (Yaw)", none)) ∧
    (∀ (st : CalcState) (img : ℤ × ℤ) (l : List Landmark)
        (rest : List (List Landmark)), st.current_count < st.max_captures →
        455 ≤ l.length →
        ¬ (st.max_yaw : ℝ) <
            |calcYaw (l.getD 234 ⟨0, 0, 0⟩) (l.getD 454 ⟨0, 0, 0⟩)| →
        (st.max_pitch : ℝ) * 2 <
            |calcPitch (l.getD 1 ⟨0, 0, 0⟩) (l.getD 234 ⟨0, 0, 0⟩)
              (l.getD 454 ⟨0, 0, 0⟩)| →
        calcProcess st ⟨some img, some (l :: rest)⟩ =
          some (st, some "Face tilted up/down too much (Pitch)", none)) ∧
    (∀ (st : CalcState) (img : ℤ × ℤ) (l : List Landmark)
        (rest : List (List Landmark)), st.current_count < st.max_captures →
        455 ≤ l.length →
        ¬ (st.max_yaw : ℝ) <
            |calcYaw (l.getD 234 ⟨0, 0, 0⟩) (l.getD 454 ⟨0, 0, 0⟩)| →
        ¬ (st.max_pitch : ℝ) * 2 <
            |calcPitch (l.getD 1 ⟨0, 0, 0⟩) (l.getD 234 ⟨0, 0, 0⟩)
              (l.getD 454 ⟨0, 0, 0⟩)| →
        calcProcess st ⟨some img, some (l :: rest)⟩ =
          some ({ st with current_count := st.current_count + 1 },
            some "Captured!", cropRect l img.1 img.2 st.padding)) ∧
    (∀ (st : CalcState) (inp : CalcInput)
        (r : CalcState × Option String × Option (ℤ × ℤ × ℤ × ℤ)) (s : String),
        calcProcess st inp = some r → r.2.1 = some s →
        s = "No face detected" ∨ s = "Face turned too much (Yaw)" ∨
        s = "Face tilted up/down too much (Pitch)" ∨ s = "Captured!") ∧
    (∀ (st : WasmState) (w h : ℤ) (lms : List Landmark),
        st.initialized = true → ¬ w < 100 → ¬ h < 100 → lms.length < 468 →
        (detectFace st w h lms).2.message = "No face detected") ∧
    (∀ (st : WasmState) (w h : ℤ) (lms : List Landmark),
        st.initialized = true → ¬ w < 100 → ¬ h < 100 → 468 ≤ lms.length →
        (¬ |EstimateYaw lms| ≤ st.max_yaw →
          (detectFace st w h lms).2.message =
            "Face turned too much (Yaw: " ++
              toString (trunc (EstimateYaw lms)) ++ "째)") ∧
        (|EstimateYaw lms| ≤ st.max_yaw →
          ¬ |EstimatePitch lms| ≤ st.max_pitch →
          (detectFace st w h lms).2.message =
            "Face tilted too much (Pitch: " ++
              toString (trunc (EstimatePitch lms)) ++ "째)") ∧
        (|EstimateYaw lms| ≤ st.max_yaw →
          |EstimatePitch lms| ≤ st.max_pitch →
          (detectFace st w h lms).2.message =
            "Good quality face detected!")) := by
  refine ⟨calcProcess_noface, ?_, ?_, ?_, calcProcess_status_mem, ?_, ?_⟩
  · intro st img l rest hcnt hlen hyaw
    rw [calcProcess_main st img l rest hcnt hlen,
      calcGate_eq_rejectYaw hyaw]
  · intro st img l rest hcnt hlen hyaw hpitch
    rw [calcProcess_main st img l rest hcnt hlen,
      calcGate_eq_rejectPitch hyaw hpitch]
  · intro st img l rest hcnt hlen hyaw hpitch
    rw [calcProcess_main st img l rest hcnt hlen,
      calcGate_eq_accept hyaw hpitch]
  · intro st w h lms hinit hw hh hlen
    rw [detectFace_noface st w h lms hinit hw hh hlen]
  · intro st w h lms hinit hw hh hlen
    rw [detectFace_detected st w h lms hinit hw hh hlen]
    refine ⟨?_, ?_, ?_⟩
    · intro hy
      have hy' : (|EstimateYaw lms| ≤ st.max_yaw : Bool) = false := by
        simp [hy]
      simp [hy']
    · intro hy hp
      have hy' : (|EstimateYaw lms| ≤ st.max_yaw : Bool) = true := by
        simp [hy]
      have hp' : (|EstimatePitch lms| ≤ st.max_pitch : Bool) = false := by
        simp [hp]
      simp [hy', hp']
    · intro hy hp
      have hy' : (|EstimateYaw lms| ≤ st.max_yaw : Bool) = true := by
        simp [hy]
      have hp' : (|EstimatePitch lms| ≤ st.max_pitch : Bool) = true := by
        simp [hp]
      simp [hy', hp']
